import Mathlib

/-!
Shallow embedding of the toy-payments engine (src/src/main.rs).

Modelling conventions:
- `rust_decimal::Decimal` amounts are rescaled to 4 fractional digits on
  parse (`amount.rescale(4)`), so every amount and every balance is an
  exact multiple of 10⁻⁴; we embed them as `Int`, counting units of 10⁻⁴
  (arithmetic on such decimals is exact, matching `rust_decimal`).
- `u32`/`u16` ids are embedded as `Nat` (ids are only created and compared
  for equality, so the width never matters).
- `HashSet<Transaction>` and `HashSet<Client>` are keyed by id
  (`Borrow<TxId>`/`Borrow<ClientId>` plus id-based `Hash`/`PartialEq`);
  we embed them as lists holding at most one element per id, with `get`
  as `List.find?` on the id and remove-then-insert as filter-then-append.
- `HashSet<TxId>` (the per-client dispute set) is embedded as a `List TxId`
  with `List.insert` (insert-if-absent, exactly `HashSet::insert`) and
  `List.erase` (exactly `HashSet::remove` on a duplicate-free list).
-/

namespace ToyPayments

/-- `rust_decimal::Decimal` restricted to the values the program creates:
fixed-point numbers with 4 digits of scale, counted in units of 10⁻⁴. -/
abbrev Decimal := Int

/-- `type TxId = u32`. -/
abbrev TxId := Nat

/-- `type ClientId = u16`. -/
abbrev ClientId := Nat

/-- `enum TransactionType` from src/src/main.rs. -/
inductive TransactionType where
  | Deposit
  | Withdrawal
  | Dispute
  | Resolve
  | Chargeback
  deriving DecidableEq

/-- `struct Transaction` from src/src/main.rs. -/
structure Transaction where
  id : TxId
  transaction_type : TransactionType
  client_id : ClientId
  amount : Decimal
  deriving DecidableEq

/-- `struct Client` from src/src/main.rs. -/
structure Client where
  id : ClientId
  available : Decimal
  held : Decimal
  total : Decimal
  locked : Bool
  disputes : List TxId
  deriving DecidableEq

/-- `Client::new`: all balances zero, unlocked, empty dispute set. -/
def Client.new (id : ClientId) : Client :=
  { id := id, available := 0, held := 0, total := 0, locked := false, disputes := [] }

/-- `Client::deposit`: `self.available = self.available + amount`. -/
def Client.deposit (c : Client) (amount : Decimal) : Client :=
  { c with available := c.available + amount }

/-- `Client::calculate_total`: `self.total = self.available + self.held`. -/
def Client.calculate_total (c : Client) : Client :=
  { c with total := c.available + c.held }

/-- `Client::withdrawal`: subtract only when `self.available >= amount`. -/
def Client.withdrawal (c : Client) (amount : Decimal) : Client :=
  if c.available ≥ amount then { c with available := c.available - amount } else c

/-- `Client::dispute`: only when the referenced transaction is a Deposit,
insert its id into the dispute set and move the amount from available to held. -/
def Client.dispute (c : Client) (tx_id : TxId) (ttype : TransactionType)
    (amount : Decimal) : Client :=
  if ttype = TransactionType.Deposit then
    { c with disputes := c.disputes.insert tx_id,
             available := c.available - amount,
             held := c.held + amount }
  else c

/-- `Client::resolve`: only when the id is in the dispute set, remove it and
move the amount from held back to available. -/
def Client.resolve (c : Client) (tx_id : TxId) (amount : Decimal) : Client :=
  if tx_id ∈ c.disputes then
    { c with disputes := c.disputes.erase tx_id,
             available := c.available + amount,
             held := c.held - amount }
  else c

/-- `Client::chargeback`: only when the id is in the dispute set, remove it,
subtract the amount from held and lock the account. -/
def Client.chargeback (c : Client) (tx_id : TxId) (amount : Decimal) : Client :=
  if tx_id ∈ c.disputes then
    { c with disputes := c.disputes.erase tx_id,
             held := c.held - amount,
             locked := true }
  else c

/-- `Client::handle_transaction`: early return when locked, otherwise route by
type and finish with `calculate_total`. -/
def Client.handle_transaction (c : Client) (ttype : TransactionType)
    (t : Transaction) : Client :=
  if c.locked then c
  else
    (match ttype with
      | TransactionType.Deposit => c.deposit t.amount
      | TransactionType.Withdrawal => c.withdrawal t.amount
      | TransactionType.Dispute => c.dispute t.id t.transaction_type t.amount
      | TransactionType.Resolve => c.resolve t.id t.amount
      | TransactionType.Chargeback => c.chargeback t.id t.amount).calculate_total

/-- `struct ToyProgram`: the client table and the transaction table. -/
structure ToyProgram where
  clients : List Client
  transactions : List Transaction
  deriving DecidableEq

/-- `ToyProgram::new`: both tables empty. -/
def ToyProgram.new : ToyProgram :=
  { clients := [], transactions := [] }

/-- `self.clients.get(&client_id)`: id-keyed lookup in the client table. -/
def getClient (clients : List Client) (cid : ClientId) : Option Client :=
  clients.find? (fun c => c.id == cid)

/-- `self.transactions.get(&tx)`: id-keyed lookup in the transaction table. -/
def getTransaction (ts : List Transaction) (tx : TxId) : Option Transaction :=
  ts.find? (fun t => t.id == tx)

/-- `self.clients.remove(...)` followed by `self.clients.insert(client)`:
drop the entry with the client's id, then add the new entry. -/
def setClient (clients : List Client) (c : Client) : List Client :=
  (clients.filter fun x => x.id != c.id) ++ [c]

/-- A parsed csv data row: `type, client, tx, amount` with the amount field
present only when the row carries one (a well-formed deposit/withdrawal row
has `some` amount, already rescaled to 4 digits; dispute/resolve/chargeback
rows carry none). -/
structure Record where
  rtype : TransactionType
  client : ClientId
  tx : TxId
  amount : Option Decimal
  deriving DecidableEq

/-- `ToyProgram::transaction_from_record`: deposits/withdrawals build a fresh
transaction from the row (`none` embeds the panic on a missing amount);
dispute/resolve/chargeback look the referenced transaction up in the table and
drop to `(type, None)` when it is absent or owned by a different client. -/
def ToyProgram.transaction_from_record (s : ToyProgram) (r : Record) :
    Option (TransactionType × Option Transaction) :=
  match r.rtype with
  | TransactionType.Deposit | TransactionType.Withdrawal =>
    match r.amount with
    | none => none
    | some a =>
      some (r.rtype,
        some { id := r.tx, transaction_type := r.rtype,
               client_id := r.client, amount := a })
  | TransactionType.Dispute | TransactionType.Resolve
  | TransactionType.Chargeback =>
    match getTransaction s.transactions r.tx with
    | some t =>
      if t.client_id = r.client then some (r.rtype, some t)
      else some (r.rtype, none)
    | none => some (r.rtype, none)

/-- `ToyProgram::ensure_globally_unique_transaction`: `Err` on `None`
(embedded as `none`), otherwise true iff the id is not yet in the table. -/
def ToyProgram.ensure_globally_unique_transaction (s : ToyProgram)
    (t : Option Transaction) : Option Bool :=
  match t with
  | none => none
  | some t =>
    match getTransaction s.transactions t.id with
    | none => some true
    | some _ => some false

/-- The `match self.clients.get(&t.client_id)` in the Deposit/Withdrawal arm
of `ToyProgram::process`: the existing entry, or `Client::new` when absent. -/
def fetchOrNew (clients : List Client) (cid : ClientId) : Client :=
  match getClient clients cid with
  | some c => c
  | none => Client.new cid

/-- One iteration of the loop body of `ToyProgram::process` on an already
parsed row: `none` embeds a panic/`Err` aborting the run. -/
def ToyProgram.step (s : ToyProgram) (r : Record) : Option ToyProgram :=
  match s.transaction_from_record r with
  | none => none
  | some (ttype, tr) =>
    match ttype, tr with
    | TransactionType.Deposit, none | TransactionType.Withdrawal, none =>
      none
    | TransactionType.Dispute, none | TransactionType.Resolve, none
    | TransactionType.Chargeback, none =>
      some s
    | TransactionType.Deposit, some t | TransactionType.Withdrawal, some t =>
      match s.ensure_globally_unique_transaction (some t) with
      | none => none
      | some unique =>
        if unique then
          some { transactions := s.transactions ++ [t],
                 clients := setClient s.clients
                   ((fetchOrNew s.clients t.client_id).handle_transaction ttype t) }
        else some s
    | TransactionType.Dispute, some t | TransactionType.Resolve, some t
    | TransactionType.Chargeback, some t =>
      match getClient s.clients t.client_id with
      | some c =>
        if c.id = t.client_id then
          some { s with clients := setClient s.clients (c.handle_transaction ttype t) }
        else some s
      | none => some s

/-- The loop of `ToyProgram::process` over a list of parsed rows. -/
def ToyProgram.processRows (s : ToyProgram) : List Record → Option ToyProgram
  | [] => some s
  | r :: rs =>
    match s.step r with
    | none => none
    | some s1 => s1.processRows rs

/-- `ToyProgram::process` on a parsed input stream. `dataRows` is the list of
data rows yielded by `reader.records()`: the csv reader is built with the
default `has_headers = true`, so the header row is consumed by the reader and
never yielded. The source then iterates `reader.records().skip(1)`, which
drops the first data row; `skip(1)` is embedded as `List.drop 1`. -/
def ToyProgram.process (s : ToyProgram) (dataRows : List Record) : Option ToyProgram :=
  s.processRows (dataRows.drop 1)

end ToyPayments

namespace ToyPayments

/-! ### Helper lemmas shared by the claim theorems -/

@[simp] lemma calculate_total_id (c : Client) : c.calculate_total.id = c.id := rfl

@[simp] lemma calculate_total_available (c : Client) :
    c.calculate_total.available = c.available := rfl

@[simp] lemma calculate_total_held (c : Client) : c.calculate_total.held = c.held := rfl

@[simp] lemma calculate_total_total (c : Client) :
    c.calculate_total.total = c.available + c.held := rfl

@[simp] lemma calculate_total_locked (c : Client) :
    c.calculate_total.locked = c.locked := rfl

@[simp] lemma calculate_total_disputes (c : Client) :
    c.calculate_total.disputes = c.disputes := rfl

/-- Recomputing the total is the identity on a client whose total is already
the sum of available and held. -/
lemma calculate_total_of_inv (c : Client) (h : c.total = c.available + c.held) :
    c.calculate_total = c := by
  unfold Client.calculate_total
  rw [← h]

/-- The locked guard of `handle_transaction`: a locked client is returned
unchanged, whatever the transaction. -/
lemma handle_of_locked (c : Client) (ttype : TransactionType) (t : Transaction)
    (h : c.locked = true) : c.handle_transaction ttype t = c := by
  simp [Client.handle_transaction, h]

/-- Unlocked dispute of a deposit: id inserted, amount moved from available
to held, total recomputed. -/
lemma handle_dispute_eq (c : Client) (t : Transaction) (hl : c.locked = false)
    (ht : t.transaction_type = TransactionType.Deposit) :
    c.handle_transaction TransactionType.Dispute t =
      { c with disputes := c.disputes.insert t.id,
               available := c.available - t.amount,
               held := c.held + t.amount,
               total := c.available - t.amount + (c.held + t.amount) } := by
  simp [Client.handle_transaction, Client.dispute, Client.calculate_total, hl, ht]

/-- Unlocked resolve of a disputed id: id removed, amount moved from held
back to available, total recomputed. -/
lemma handle_resolve_mem_eq (c : Client) (t : Transaction) (hl : c.locked = false)
    (hd : t.id ∈ c.disputes) :
    c.handle_transaction TransactionType.Resolve t =
      { c with disputes := c.disputes.erase t.id,
               available := c.available + t.amount,
               held := c.held - t.amount,
               total := c.available + t.amount + (c.held - t.amount) } := by
  simp [Client.handle_transaction, Client.resolve, Client.calculate_total, hl, hd]

/-- Resolve of an id that is not under dispute is the identity (on a client
whose total already equals available + held). -/
lemma handle_resolve_not_mem_eq (c : Client) (t : Transaction) (hl : c.locked = false)
    (hd : t.id ∉ c.disputes) (hinv : c.total = c.available + c.held) :
    c.handle_transaction TransactionType.Resolve t = c := by
  simp only [Client.handle_transaction, hl, Bool.false_eq_true, if_false, Client.resolve]
  rw [if_neg hd]
  exact calculate_total_of_inv c hinv

/-- Unlocked chargeback of a disputed id: id removed, amount taken out of
held, account locked, total recomputed. -/
lemma handle_chargeback_mem_eq (c : Client) (t : Transaction) (hl : c.locked = false)
    (hd : t.id ∈ c.disputes) :
    c.handle_transaction TransactionType.Chargeback t =
      { c with disputes := c.disputes.erase t.id,
               held := c.held - t.amount,
               total := c.available + (c.held - t.amount),
               locked := true } := by
  simp [Client.handle_transaction, Client.chargeback, Client.calculate_total, hl, hd]

/-- Chargeback of an id that is not under dispute is the identity (on a
client whose total already equals available + held). -/
lemma handle_chargeback_not_mem_eq (c : Client) (t : Transaction) (hl : c.locked = false)
    (hd : t.id ∉ c.disputes) (hinv : c.total = c.available + c.held) :
    c.handle_transaction TransactionType.Chargeback t = c := by
  simp only [Client.handle_transaction, hl, Bool.false_eq_true, if_false, Client.chargeback]
  rw [if_neg hd]
  exact calculate_total_of_inv c hinv

/-- A successful id-keyed lookup returns an element of the table. -/
lemma getClient_mem {clients : List Client} {cid : ClientId} {c : Client}
    (h : getClient clients cid = some c) : c ∈ clients :=
  List.mem_of_find?_eq_some h

/-- Everything in the updated client table is an old entry or the new one. -/
lemma mem_setClient {clients : List Client} {c x : Client}
    (hx : x ∈ setClient clients c) : x ∈ clients ∨ x = c := by
  unfold setClient at hx
  rcases List.mem_append.mp hx with h | h
  · exact Or.inl (List.mem_of_mem_filter h)
  · simp only [List.mem_singleton] at h
    exact Or.inr h

/-- `handle_transaction` preserves `total = available + held`. -/
lemma handle_transaction_total {c : Client} (ttype : TransactionType) (t : Transaction)
    (h : c.total = c.available + c.held) :
    (c.handle_transaction ttype t).total =
      (c.handle_transaction ttype t).available + (c.handle_transaction ttype t).held := by
  unfold Client.handle_transaction
  by_cases hl : c.locked
  · simpa [hl] using h
  · simp [hl]

/-- Fetch-or-create yields a client satisfying `total = available + held`
whenever every client in the table does. -/
lemma fetchOrNew_inv {clients : List Client} (cid : ClientId)
    (hinv : ∀ c ∈ clients, c.total = c.available + c.held) :
    (fetchOrNew clients cid).total =
      (fetchOrNew clients cid).available + (fetchOrNew clients cid).held := by
  unfold fetchOrNew
  cases h : getClient clients cid with
  | none => simp [Client.new]
  | some c => exact hinv c (getClient_mem h)

/-- Writing back a client satisfying `total = available + held` keeps the
whole table satisfying it. -/
lemma inv_setClient {clients : List Client} {c : Client}
    (hinv : ∀ x ∈ clients, x.total = x.available + x.held)
    (hc : c.total = c.available + c.held) :
    ∀ x ∈ setClient clients c, x.total = x.available + x.held := by
  intro x hx
  rcases mem_setClient hx with h | h
  · exact hinv x h
  · rw [h]; exact hc

/-- One engine step preserves `total = available + held` for every client. -/
lemma step_inv {s s1 : ToyProgram} {r : Record}
    (hinv : ∀ c ∈ s.clients, c.total = c.available + c.held)
    (hstep : s.step r = some s1) :
    ∀ c ∈ s1.clients, c.total = c.available + c.held := by
  unfold ToyProgram.step at hstep
  repeat' split at hstep
  all_goals
    first
      | exact Option.noConfusion hstep
      | (injection hstep with h; subst h)
  all_goals try exact hinv
  all_goals
    first
      | exact inv_setClient hinv (handle_transaction_total _ _ (fetchOrNew_inv _ hinv))
      | (rename_i c0 heq hid
         exact inv_setClient hinv (handle_transaction_total _ _ (hinv c0 (getClient_mem heq))))

/-- The loop of `process` preserves `total = available + held` for every
client in the table. -/
lemma processRows_inv {rows : List Record} {s s1 : ToyProgram}
    (hinv : ∀ c ∈ s.clients, c.total = c.available + c.held)
    (h : s.processRows rows = some s1) :
    ∀ c ∈ s1.clients, c.total = c.available + c.held := by
  induction rows generalizing s with
  | nil =>
    rw [ToyProgram.processRows] at h
    injection h with h
    subst h
    exact hinv
  | cons r rs ih =>
    rw [ToyProgram.processRows] at h
    cases hstep : s.step r with
    | none => rw [hstep] at h; exact Option.noConfusion h
    | some s2 => rw [hstep] at h; exact ih (step_inv hinv hstep) h

end ToyPayments

namespace ToyPayments

/-! ### Claim theorems -/

/-- C1 (refuted; code bug): the claim says the engine applies all N data rows,
each exactly once, in input order, so that a client appearing only in the
first data row still gets an output row. The code instead iterates
`reader.records().skip(1)`: the csv reader already consumes the header row,
so `skip(1)` silently drops the first data row. On the stream whose single
data row is `deposit, client 1, tx 1, 10.0000`, `process` leaves the engine
empty (no row for client 1), while the fold of the loop body over the whole
data-row sequence accepts the deposit and produces client 1. -/
theorem first_data_row_never_applied :
    ToyProgram.new.process
      [ { rtype := TransactionType.Deposit, client := 1, tx := 1, amount := some 100000 } ] =
      some ToyProgram.new ∧
    ToyProgram.new.processRows
      [ { rtype := TransactionType.Deposit, client := 1, tx := 1, amount := some 100000 } ] =
      some { clients := [{ id := 1, available := 100000, held := 0, total := 100000,
                           locked := false, disputes := [] }],
             transactions := [{ id := 1, transaction_type := TransactionType.Deposit,
                                client_id := 1, amount := 100000 }] } :=
  ⟨rfl, by decide⟩

/-- C2: after any run of the engine loop (equivalently, at every intermediate
point of a longer run, which is a run on a prefix), every client in the client
table satisfies `total = available + held` under exact decimal equality. -/
theorem total_eq_available_plus_held (rows : List Record) (s : ToyProgram)
    (h : ToyProgram.new.processRows rows = some s) :
    ∀ c ∈ s.clients, c.total = c.available + c.held :=
  processRows_inv (fun c hc => absurd hc (List.not_mem_nil c)) h

/-- Witness for C2 at the one-row stream `deposit, client 1, tx 1, 10.0000`. -/
theorem total_eq_available_plus_held_witness :
    (Client.mk 1 100000 0 100000 false []).total =
      (Client.mk 1 100000 0 100000 false []).available +
        (Client.mk 1 100000 0 100000 false []).held :=
  total_eq_available_plus_held
    [ { rtype := TransactionType.Deposit, client := 1, tx := 1, amount := some 100000 } ]
    { clients := [Client.mk 1 100000 0 100000 false []],
      transactions := [Transaction.mk 1 TransactionType.Deposit 1 100000] }
    (by decide) (Client.mk 1 100000 0 100000 false []) (by decide)

/-- C3: a locked client account is frozen: `handle_transaction` (the single
entry point through which every transaction reaches an account) returns the
account unchanged for every transaction type, so available, held, total, the
locked flag and the dispute set are all unchanged and the account never
leaves the locked state. -/
theorem locked_account_frozen (c : Client) (ttype : TransactionType) (t : Transaction)
    (h : c.locked = true) : c.handle_transaction ttype t = c := by
  simp [Client.handle_transaction, h]

/-- Witness for C3: a locked account ignores a deposit. -/
theorem locked_account_frozen_witness :
    (Client.mk 7 500 200 700 true [4]).handle_transaction TransactionType.Deposit
      (Transaction.mk 9 TransactionType.Deposit 7 100000) =
      Client.mk 7 500 200 700 true [4] :=
  locked_account_frozen (Client.mk 7 500 200 700 true [4]) TransactionType.Deposit
    (Transaction.mk 9 TransactionType.Deposit 7 100000) rfl

/-- C4: a Deposit or Withdrawal row whose transaction id is already in the
transaction table is dropped: the engine step is a no-op on the whole state
(transaction table and every client account). -/
theorem duplicate_transaction_dropped (s : ToyProgram) (r : Record) (a : Decimal)
    (t0 : Transaction)
    (hty : r.rtype = TransactionType.Deposit ∨ r.rtype = TransactionType.Withdrawal)
    (ha : r.amount = some a)
    (hdup : getTransaction s.transactions r.tx = some t0) :
    s.step r = some s := by
  rcases hty with hty | hty <;>
    simp [ToyProgram.step, ToyProgram.transaction_from_record, hty, ha,
          ToyProgram.ensure_globally_unique_transaction, hdup]

/-- Witness for C4: a second deposit with the already-accepted id 1 is a
no-op on the engine state. -/
theorem duplicate_transaction_dropped_witness :
    (ToyProgram.mk [] [Transaction.mk 1 TransactionType.Deposit 1 100000]).step
      { rtype := TransactionType.Deposit, client := 2, tx := 1, amount := some 50000 } =
      some (ToyProgram.mk [] [Transaction.mk 1 TransactionType.Deposit 1 100000]) :=
  duplicate_transaction_dropped
    (ToyProgram.mk [] [Transaction.mk 1 TransactionType.Deposit 1 100000])
    { rtype := TransactionType.Deposit, client := 2, tx := 1, amount := some 50000 }
    50000 (Transaction.mk 1 TransactionType.Deposit 1 100000) (Or.inl rfl) rfl rfl

/-- C5: on an unlocked account, disputing an accepted deposit whose id is not
currently under dispute and then resolving it restores available and held to
their exact pre-dispute values and returns the dispute set to what it was
before the dispute. -/
theorem dispute_resolve_roundtrip (c : Client) (t : Transaction)
    (hl : c.locked = false) (ht : t.transaction_type = TransactionType.Deposit)
    (hd : t.id ∉ c.disputes) :
    ((c.handle_transaction TransactionType.Dispute t).handle_transaction
        TransactionType.Resolve t).available = c.available ∧
    ((c.handle_transaction TransactionType.Dispute t).handle_transaction
        TransactionType.Resolve t).held = c.held ∧
    ((c.handle_transaction TransactionType.Dispute t).handle_transaction
        TransactionType.Resolve t).disputes = c.disputes := by
  rw [handle_dispute_eq c t hl ht]
  rw [handle_resolve_mem_eq _ t (by simp [hl]) (by simp [List.mem_insert_self])]
  simp [List.insert_of_not_mem hd, List.erase_cons_head]

/-- Witness for C5 at a concrete account and deposit. -/
theorem dispute_resolve_roundtrip_witness :
    (((Client.mk 1 100000 0 100000 false []).handle_transaction TransactionType.Dispute
        (Transaction.mk 1 TransactionType.Deposit 1 100000)).handle_transaction
        TransactionType.Resolve (Transaction.mk 1 TransactionType.Deposit 1 100000)).available =
      (Client.mk 1 100000 0 100000 false []).available ∧
    (((Client.mk 1 100000 0 100000 false []).handle_transaction TransactionType.Dispute
        (Transaction.mk 1 TransactionType.Deposit 1 100000)).handle_transaction
        TransactionType.Resolve (Transaction.mk 1 TransactionType.Deposit 1 100000)).held =
      (Client.mk 1 100000 0 100000 false []).held ∧
    (((Client.mk 1 100000 0 100000 false []).handle_transaction TransactionType.Dispute
        (Transaction.mk 1 TransactionType.Deposit 1 100000)).handle_transaction
        TransactionType.Resolve (Transaction.mk 1 TransactionType.Deposit 1 100000)).disputes =
      (Client.mk 1 100000 0 100000 false []).disputes :=
  dispute_resolve_roundtrip (Client.mk 1 100000 0 100000 false [])
    (Transaction.mk 1 TransactionType.Deposit 1 100000) rfl rfl (by decide)

end ToyPayments

namespace ToyPayments

/-- C6: on an unlocked account (with its total invariant), a Chargeback whose
referenced id is under dispute removes the id from the dispute set, decreases
held by the disputed deposit amount, leaves available unchanged, locks the
account and recomputes the total; a Chargeback whose referenced id is not
under dispute is a no-op. Concretely, deposit of 10.0000 then dispute then
chargeback ends at available = 0, held = 0, total = 0, locked = true. -/
theorem chargeback_spec (c : Client) (t : Transaction)
    (hl : c.locked = false) (hinv : c.total = c.available + c.held) :
    (t.id ∈ c.disputes →
      c.handle_transaction TransactionType.Chargeback t =
        { c with disputes := c.disputes.erase t.id,
                 held := c.held - t.amount,
                 total := c.available + (c.held - t.amount),
                 locked := true }) ∧
    (t.id ∉ c.disputes → c.handle_transaction TransactionType.Chargeback t = c) ∧
    ToyProgram.new.processRows
      [ { rtype := TransactionType.Deposit, client := 1, tx := 1, amount := some 100000 },
        { rtype := TransactionType.Dispute, client := 1, tx := 1, amount := none },
        { rtype := TransactionType.Chargeback, client := 1, tx := 1, amount := none } ] =
      some { clients := [{ id := 1, available := 0, held := 0, total := 0,
                           locked := true, disputes := [] }],
             transactions := [{ id := 1, transaction_type := TransactionType.Deposit,
                                client_id := 1, amount := 100000 }] } :=
  ⟨fun hd => handle_chargeback_mem_eq c t hl hd,
   fun hd => handle_chargeback_not_mem_eq c t hl hd hinv,
   by decide⟩

/-- Witness for C6: chargeback of the disputed deposit 5 on a concrete
unlocked account. -/
theorem chargeback_spec_witness :
    (Client.mk 1 0 30000 30000 false [5]).handle_transaction TransactionType.Chargeback
      (Transaction.mk 5 TransactionType.Deposit 1 30000) =
      Client.mk 1 0 0 0 true [] := by
  have h := (chargeback_spec (Client.mk 1 0 30000 30000 false [5])
    (Transaction.mk 5 TransactionType.Deposit 1 30000) rfl (by decide)).1 (by decide)
  simpa using h

/-- C7: a Dispute whose referenced transaction exists and belongs to the
stated client but is not a Deposit (for example a stored Withdrawal) is a
no-op on the account: available, held, total and the dispute set are all
unchanged (stated for any account whose total invariant holds, which every
reachable account satisfies). -/
theorem dispute_non_deposit_noop (c : Client) (t : Transaction)
    (ht : t.transaction_type ≠ TransactionType.Deposit)
    (hinv : c.total = c.available + c.held) :
    c.handle_transaction TransactionType.Dispute t = c := by
  by_cases hl : c.locked
  · exact handle_of_locked c _ t hl
  · simp only [Client.handle_transaction, hl, Bool.false_eq_true, if_false, Client.dispute]
    rw [if_neg ht]
    exact calculate_total_of_inv c hinv

/-- Witness for C7: disputing a stored withdrawal changes nothing. -/
theorem dispute_non_deposit_noop_witness :
    (Client.mk 1 100 50 150 false []).handle_transaction TransactionType.Dispute
      (Transaction.mk 2 TransactionType.Withdrawal 1 100) =
      Client.mk 1 100 50 150 false [] :=
  dispute_non_deposit_noop (Client.mk 1 100 50 150 false [])
    (Transaction.mk 2 TransactionType.Withdrawal 1 100) (by decide) (by decide)

/-- C8: a Dispute, Resolve or Chargeback row whose referenced transaction id
exists in the transaction table but is stored under a different client id is
dropped whole: the engine step returns the state unchanged (every client
account, the transaction table and every dispute set), and the run continues
(the step does not abort). -/
theorem ownership_mismatch_dropped (s : ToyProgram) (r : Record) (t0 : Transaction)
    (hty : r.rtype = TransactionType.Dispute ∨ r.rtype = TransactionType.Resolve ∨
           r.rtype = TransactionType.Chargeback)
    (hex : getTransaction s.transactions r.tx = some t0)
    (hmm : t0.client_id ≠ r.client) :
    s.step r = some s := by
  rcases hty with hty | hty | hty <;>
    simp [ToyProgram.step, ToyProgram.transaction_from_record, hty, hex, hmm]

/-- Witness for C8: client 2 disputing client 1's transaction is dropped. -/
theorem ownership_mismatch_dropped_witness :
    (ToyProgram.mk [] [Transaction.mk 1 TransactionType.Deposit 1 100000]).step
      { rtype := TransactionType.Dispute, client := 2, tx := 1, amount := none } =
      some (ToyProgram.mk [] [Transaction.mk 1 TransactionType.Deposit 1 100000]) :=
  ownership_mismatch_dropped
    (ToyProgram.mk [] [Transaction.mk 1 TransactionType.Deposit 1 100000])
    { rtype := TransactionType.Dispute, client := 2, tx := 1, amount := none }
    (Transaction.mk 1 TransactionType.Deposit 1 100000) (Or.inl rfl) rfl (by decide)

/-- C9: Dispute is not idempotent. On an unlocked account, disputing a deposit
id already under dispute again subtracts the amount from available and adds it
to held while leaving the dispute set unchanged; and after Dispute, Dispute,
Resolve on a deposit not initially under dispute, held exceeds its
pre-first-dispute value by the deposit amount, the id is no longer in the
dispute set, and a further Resolve or Chargeback referencing that id is a
no-op, so those held funds can never be moved by it. -/
theorem dispute_not_idempotent (c : Client) (t : Transaction)
    (hl : c.locked = false) (ht : t.transaction_type = TransactionType.Deposit) :
    (t.id ∈ c.disputes →
      (c.handle_transaction TransactionType.Dispute t).available = c.available - t.amount ∧
      (c.handle_transaction TransactionType.Dispute t).held = c.held + t.amount ∧
      (c.handle_transaction TransactionType.Dispute t).disputes = c.disputes) ∧
    (t.id ∉ c.disputes →
      (((c.handle_transaction TransactionType.Dispute t).handle_transaction
          TransactionType.Dispute t).handle_transaction TransactionType.Resolve t).held =
        c.held + t.amount ∧
      t.id ∉ (((c.handle_transaction TransactionType.Dispute t).handle_transaction
          TransactionType.Dispute t).handle_transaction TransactionType.Resolve t).disputes ∧
      ((((c.handle_transaction TransactionType.Dispute t).handle_transaction
          TransactionType.Dispute t).handle_transaction TransactionType.Resolve t).handle_transaction
          TransactionType.Resolve t) =
        (((c.handle_transaction TransactionType.Dispute t).handle_transaction
          TransactionType.Dispute t).handle_transaction TransactionType.Resolve t) ∧
      ((((c.handle_transaction TransactionType.Dispute t).handle_transaction
          TransactionType.Dispute t).handle_transaction TransactionType.Resolve t).handle_transaction
          TransactionType.Chargeback t) =
        (((c.handle_transaction TransactionType.Dispute t).handle_transaction
          TransactionType.Dispute t).handle_transaction TransactionType.Resolve t)) := by
  constructor
  · intro hd
    rw [handle_dispute_eq c t hl ht]
    simp [List.insert_of_mem hd]
  · intro hd
    rw [handle_dispute_eq c t hl ht]
    rw [handle_dispute_eq _ t (by simp [hl]) ht]
    simp only [List.insert_of_not_mem hd]
    rw [handle_resolve_mem_eq _ t (by simp [hl]) (by simp)]
    simp only [List.insert_of_mem (List.mem_cons_self t.id c.disputes)]
    rw [List.erase_cons_head]
    refine ⟨by simp, by simpa using hd, ?_, ?_⟩
    · exact handle_resolve_not_mem_eq _ t (by simp [hl]) (by simpa using hd) (by simp)
    · exact handle_chargeback_not_mem_eq _ t (by simp [hl]) (by simpa using hd) (by simp)

/-- Witness for C9: after Dispute, Dispute, Resolve on a fresh 10.0000
deposit, held ends at the deposit amount instead of zero. -/
theorem dispute_not_idempotent_witness :
    ((((Client.mk 1 100000 0 100000 false []).handle_transaction TransactionType.Dispute
        (Transaction.mk 1 TransactionType.Deposit 1 100000)).handle_transaction
        TransactionType.Dispute
        (Transaction.mk 1 TransactionType.Deposit 1 100000)).handle_transaction
        TransactionType.Resolve (Transaction.mk 1 TransactionType.Deposit 1 100000)).held =
      (Client.mk 1 100000 0 100000 false []).held +
        (Transaction.mk 1 TransactionType.Deposit 1 100000).amount :=
  ((dispute_not_idempotent (Client.mk 1 100000 0 100000 false [])
    (Transaction.mk 1 TransactionType.Deposit 1 100000) rfl rfl).2 (by decide)).1

/-- C10: an accepted input sequence can drive a client's available balance
strictly negative: deposit 10.0000 (tx 1), withdraw 10.0000 (tx 2), then
dispute tx 1 — the dispute subtracts the deposit amount from available
without checking funds, ending at available = -10.0000, held = 10.0000,
total = 0. -/
theorem negative_available_reachable :
    ∃ s : ToyProgram,
      ToyProgram.new.processRows
        [ { rtype := TransactionType.Deposit, client := 1, tx := 1, amount := some 100000 },
          { rtype := TransactionType.Withdrawal, client := 1, tx := 2, amount := some 100000 },
          { rtype := TransactionType.Dispute, client := 1, tx := 1, amount := none } ] =
        some s ∧
      ∃ c ∈ s.clients, c.available < 0 := by
  refine ⟨{ clients := [{ id := 1, available := -100000, held := 100000, total := 0,
                          locked := false, disputes := [1] }],
            transactions := [{ id := 1, transaction_type := TransactionType.Deposit,
                               client_id := 1, amount := 100000 },
                             { id := 2, transaction_type := TransactionType.Withdrawal,
                                client_id := 1, amount := 100000 }] },
          by decide, by decide⟩

end ToyPayments
